import Mathlib

/-!
Shallow embedding of the bookmonk-be book-catalog core: the Book aggregate
service (`src/catalog-service/src/services/bookService.js`), the shared
validation runner (`src/packages/shared/utils/validate.js`), the JWT
authentication middleware, the admin book routes
(`src/admin-service/src/routes/bookRoutes.js`) and the list controller
(`src/catalog-service/src/controllers/bookController.js`).

The relational store (Prisma/PostgreSQL) is modelled as explicit lists of
rows with the uniqueness/cascade behavior of the catalog migration; each
stateful service operation is a function from a `Db` to a result paired
with the successor `Db`.  JavaScript truthiness on optional strings is
modelled by `strTruthy`; JS `Date` construction is modelled opaquely by
tagging the parsed source string.
-/

/-- JS truthiness of a possibly-absent string (`undefined`/`null` and `""`
are falsy, every other string truthy). -/
def strTruthy : Option String → Bool
  | none => false
  | some s => s != ""

/-- `listStartsWith p l` : `p` is a prefix of `l` (character lists). -/
def listStartsWith : List Char → List Char → Bool
  | [], _ => true
  | _ :: _, [] => false
  | a :: as, b :: bs => a == b && listStartsWith as bs

/-- `listHasSub n l` : `n` occurs as a contiguous substring of `l`. -/
def listHasSub (needle : List Char) : List Char → Bool
  | [] => needle.isEmpty
  | c :: rest => listStartsWith needle (c :: rest) || listHasSub needle rest

/-- Case-insensitive substring containment, modelling Prisma
`contains ... mode: "insensitive"`. -/
def containsInsensitive (hay needle : String) : Bool :=
  listHasSub needle.toLower.toList hay.toLower.toList

/-- Digit accumulator for `jsParseInt`: consumes leading decimal digits,
`none` when no digit was consumed (JS `NaN`). -/
def parseDigitsAcc : List Char → Option Nat → Option Nat
  | [], acc => acc
  | c :: rest, acc =>
    if c.isDigit then parseDigitsAcc rest (some ((acc.getD 0) * 10 + (c.toNat - 48)))
    else acc

/-- JS `parseInt(x, 10)` on a possibly-absent string: skip leading
whitespace, optional sign, then leading digits; `none` models `NaN`. -/
def jsParseInt : Option String → Option Int
  | none => none
  | some str =>
    let cs := str.toList.dropWhile (fun c => c == ' ' || c == '\t' || c == '\n' || c == '\r')
    match cs with
    | '-' :: rest => (parseDigitsAcc rest none).map (fun n => -(n : Int))
    | '+' :: rest => (parseDigitsAcc rest none).map (fun n => (n : Int))
    | _ => (parseDigitsAcc cs none).map (fun n => (n : Int))

/-- JS `v || d` on numbers where `v` may be `NaN` (`none`): `0` and `NaN`
are falsy and fall through to the default. -/
def jsOrInt (v : Option Int) (d : Int) : Int :=
  match v with
  | none => d
  | some n => if n == 0 then d else n

/-- Opaque model of JS `new Date(s)`: the parsed date is represented by the
source string it was parsed from. -/
structure JsDate where
  raw : String
deriving DecidableEq

/-- One field-level validation error entry, as built by `validate`
(`field` is `err.path || err.param`). -/
structure FieldError where
  field : Option String
  message : String
  value : Option String
deriving DecidableEq

/-- The typed error classes of `packages/shared/utils/errors.js` (staged
as the third document of `src/packages/shared/utils/logger.js`), restricted
to the classes the catalog core raises.  Each constructor carries the
arguments of the corresponding class constructor:
`ValidationError(message, errors)`, `NotFoundError(resource, identifier)`,
`ConflictError(message)`, `UnauthorizedError(message)`,
`ForbiddenError(message)`. -/
inductive AppError where
  | validation (message : String) (errors : List FieldError)
  | notFound (resource : String) (id : String)
  | conflict (message : String)
  | unauthorized (message : String)
  | forbidden (message : String)
deriving DecidableEq

/-- The ASCII single-quote character used by `NotFoundError`'s message
template. -/
def singleQuote : String := String.singleton (Char.ofNat 39)

/-- The `statusCode` each error class passes to the `AppError` base
constructor (400, 404, 409, 401, 403). -/
def AppError.statusCode : AppError → Nat
  | .validation _ _ => 400
  | .notFound _ _ => 404
  | .conflict _ => 409
  | .unauthorized _ => 401
  | .forbidden _ => 403

/-- The `code` string each error class passes to the `AppError` base
constructor. -/
def AppError.code : AppError → String
  | .validation _ _ => "VALIDATION_ERROR"
  | .notFound _ _ => "NOT_FOUND"
  | .conflict _ => "CONFLICT"
  | .unauthorized _ => "UNAUTHORIZED"
  | .forbidden _ => "FORBIDDEN"

/-- The `message` of each error: the constructor argument, except
`NotFoundError`, which builds
`` `${resource} with identifier '${identifier}' not found` `` when the
identifier is truthy and `` `${resource} not found` `` otherwise. -/
def AppError.message : AppError → String
  | .validation m _ => m
  | .notFound resource identifier =>
    if identifier != "" then
      resource ++ " with identifier " ++ singleQuote ++ identifier ++ singleQuote ++
        " not found"
    else resource ++ " not found"
  | .conflict m => m
  | .unauthorized m => m
  | .forbidden m => m

/-- A `Book` row of the catalog schema (migration `init_catalog`). -/
structure BookRow where
  id : String
  isbn : Option String
  isbn13 : Option String
  title : String
  subtitle : Option String
  description : String
  publisher : Option String
  publicationDate : Option JsDate
  edition : Option String
  language : String
  pageCount : Option Int
  format : String
  price : ℚ
  discountPrice : Option ℚ
  stockQuantity : Int
  coverImageUrl : String
  previewUrl : Option String
  averageRating : ℚ
  ratingsCount : Int
  additionalInfo : List (String × String)
  isFeatured : Bool
  isActive : Bool
  createdAt : Nat
  updatedAt : Nat
deriving DecidableEq

/-- An `Author` row. -/
structure AuthorRow where
  id : String
  name : String
  bio : Option String
  photoUrl : Option String
  birthDate : Option JsDate
deriving DecidableEq

/-- A `Category` row. -/
structure CategoryRow where
  id : String
  name : String
  slug : String
  parentId : Option String
  description : Option String
deriving DecidableEq

/-- A `BookAuthor` join row carrying the credited-author order. -/
structure BookAuthorRow where
  bookId : String
  authorId : String
  authorOrder : Nat
deriving DecidableEq

/-- A `BookCategory` join row carrying the primary flag. -/
structure BookCategoryRow where
  bookId : String
  categoryId : String
  isPrimary : Bool
deriving DecidableEq

/-- The relational store: tables as row lists, plus an id counter
(modelling generated ids) and a clock (modelling server timestamps). -/
structure Db where
  books : List BookRow
  authors : List AuthorRow
  categories : List CategoryRow
  bookAuthors : List BookAuthorRow
  bookCategories : List BookCategoryRow
  nextId : Nat
  now : Nat
deriving DecidableEq

/-- Flattened author entry of a shaped book response. -/
structure ShapedAuthor where
  id : String
  name : String
  order : Nat
deriving DecidableEq

/-- Flattened category entry of a shaped book response. -/
structure ShapedCategory where
  id : String
  name : String
  slug : String
  isPrimary : Bool
deriving DecidableEq

/-- The shaped public Book representation produced by
`formatBookResponse`; `authors`/`categories` are `none` when the fetch did
not attach relations (JS `book.authors?.map`). -/
structure FormattedBook where
  id : String
  isbn : Option String
  isbn13 : Option String
  title : String
  subtitle : Option String
  description : String
  publisher : Option String
  publicationDate : Option JsDate
  edition : Option String
  language : String
  pageCount : Option Int
  format : String
  price : ℚ
  discountPrice : Option ℚ
  stockQuantity : Int
  coverImageUrl : String
  previewUrl : Option String
  averageRating : ℚ
  ratingsCount : Int
  additionalInfo : List (String × String)
  isFeatured : Bool
  isActive : Bool
  createdAt : Nat
  updatedAt : Nat
  authors : Option (List ShapedAuthor)
  categories : Option (List ShapedCategory)
deriving DecidableEq

/-- A raw Prisma book result: the row plus optionally attached relation
lists (join row paired with the joined entity). -/
structure BookWithRelations where
  row : BookRow
  authors : Option (List (BookAuthorRow × AuthorRow))
  categories : Option (List (BookCategoryRow × CategoryRow))

/-- Numeric rank of a Bool, for `orderBy isPrimary: "desc"`. -/
def boolRank (b : Bool) : Nat := if b then 1 else 0

/-- Relation-aware fetch for one book: joins for the book, authors ordered
by `authorOrder` ascending, categories ordered by `isPrimary` descending,
each join paired with its referenced entity (present by the schema's
foreign keys; a default is supplied to keep the model total). -/
def fetchRelations (db : Db) (row : BookRow) : BookWithRelations :=
  { row := row
    authors :=
      some ((List.insertionSort (fun a b => a.authorOrder ≤ b.authorOrder)
          (db.bookAuthors.filter (fun j => j.bookId == row.id))).map
        (fun j => (j, (db.authors.find? (fun a => a.id == j.authorId)).getD
          ⟨j.authorId, "", none, none, none⟩)))
    categories :=
      some ((List.insertionSort (fun a b => boolRank b.isPrimary ≤ boolRank a.isPrimary)
          (db.bookCategories.filter (fun j => j.bookId == row.id))).map
        (fun j => (j, (db.categories.find? (fun c => c.id == j.categoryId)).getD
          ⟨j.categoryId, "", "", none, none⟩))) }

/-- `BookService.formatBookResponse`: flatten join rows into
`authors`/`categories` arrays, pass every scalar field through. -/
def formatBookResponse (book : BookWithRelations) : FormattedBook :=
  { id := book.row.id
    isbn := book.row.isbn
    isbn13 := book.row.isbn13
    title := book.row.title
    subtitle := book.row.subtitle
    description := book.row.description
    publisher := book.row.publisher
    publicationDate := book.row.publicationDate
    edition := book.row.edition
    language := book.row.language
    pageCount := book.row.pageCount
    format := book.row.format
    price := book.row.price
    discountPrice := book.row.discountPrice
    stockQuantity := book.row.stockQuantity
    coverImageUrl := book.row.coverImageUrl
    previewUrl := book.row.previewUrl
    averageRating := book.row.averageRating
    ratingsCount := book.row.ratingsCount
    additionalInfo := book.row.additionalInfo
    isFeatured := book.row.isFeatured
    isActive := book.row.isActive
    createdAt := book.row.createdAt
    updatedAt := book.row.updatedAt
    authors := book.authors.map (List.map (fun ba => ⟨ba.2.id, ba.2.name, ba.1.authorOrder⟩))
    categories := book.categories.map
      (List.map (fun bc => ⟨bc.2.id, bc.2.name, bc.2.slug, bc.1.isPrimary⟩)) }

/-- The `createBook` payload (`bookData`): `none` models an absent
(`undefined`) property; fields the schema requires for a successful insert
are carried as plain values. -/
structure BookData where
  isbn : Option String := none
  isbn13 : Option String := none
  title : String
  subtitle : Option String := none
  description : String
  publisher : Option String := none
  publicationDate : Option String := none
  edition : Option String := none
  language : Option String := none
  pageCount : Option Int := none
  format : String
  price : ℚ
  discountPrice : Option ℚ := none
  stockQuantity : Option Int := none
  coverImageUrl : String
  previewUrl : Option String := none
  additionalInfo : Option (List (String × String)) := none
  isFeatured : Option Bool := none
  isActive : Option Bool := none
  averageRating : Option ℚ := none
  ratingsCount : Option Int := none
  authorIds : Option (List String) := none
  categoryIds : Option (List String) := none
deriving DecidableEq

/-- The duplicate-ISBN `findFirst` predicate: an OR over the supplied
(truthy) alternate keys, omitting whichever is absent
(`[isbn ? {isbn} : undefined, isbn13 ? {isbn13} : undefined].filter(Boolean)`). -/
def dupWhere (isbn isbn13 : Option String) (b : BookRow) : Bool :=
  (strTruthy isbn && b.isbn == isbn) || (strTruthy isbn13 && b.isbn13 == isbn13)

/-- Nested-create of `BookAuthor` join rows:
`authorIds.map((authorId, index) => ({authorId, authorOrder: index + 1}))`. -/
def mkAuthorJoins (bookId : String) : Nat → List String → List BookAuthorRow
  | _, [] => []
  | i, a :: rest => ⟨bookId, a, i + 1⟩ :: mkAuthorJoins bookId (i + 1) rest

/-- Nested-create of `BookCategory` join rows:
`categoryIds.map((categoryId, index) => ({categoryId, isPrimary: index === 0}))`. -/
def mkCategoryJoins (bookId : String) : Nat → List String → List BookCategoryRow
  | _, [] => []
  | i, c :: rest => ⟨bookId, c, i == 0⟩ :: mkCategoryJoins bookId (i + 1) rest

/-- The Book row assembled by `prisma.book.create` from the payload:
JS defaults (`language = "en"`, `stockQuantity = 0`, `additionalInfo = {}`,
`isFeatured = false`, `isActive = true`) applied, `publicationDate`
parsed when truthy, `averageRating`/`ratingsCount` never read from the
payload (schema defaults 0). -/
def newBookRow (bd : BookData) (id : String) (now : Nat) : BookRow :=
  { id := id
    isbn := bd.isbn
    isbn13 := bd.isbn13
    title := bd.title
    subtitle := bd.subtitle
    description := bd.description
    publisher := bd.publisher
    publicationDate :=
      match bd.publicationDate with
      | some s => if s == "" then none else some ⟨s⟩
      | none => none
    edition := bd.edition
    language := bd.language.getD "en"
    pageCount := bd.pageCount
    format := bd.format
    price := bd.price
    discountPrice := bd.discountPrice
    stockQuantity := bd.stockQuantity.getD 0
    coverImageUrl := bd.coverImageUrl
    previewUrl := bd.previewUrl
    averageRating := 0
    ratingsCount := 0
    additionalInfo := bd.additionalInfo.getD []
    isFeatured := bd.isFeatured.getD false
    isActive := bd.isActive.getD true
    createdAt := now
    updatedAt := now }

/-- The `prisma.book.create` step of `createBook`: insert the Book row and,
atomically with it, the `BookAuthor`/`BookCategory` join rows (none when
the id list is empty), then return the shaped representation. -/
def doCreateBook (bd : BookData) (db : Db) : Except AppError FormattedBook × Db :=
  let id := toString db.nextId
  let row := newBookRow bd id db.now
  let db' : Db :=
    { db with
      books := db.books ++ [row]
      bookAuthors := db.bookAuthors ++ mkAuthorJoins id 0 (bd.authorIds.getD [])
      bookCategories := db.bookCategories ++ mkCategoryJoins id 0 (bd.categoryIds.getD [])
      nextId := db.nextId + 1
      now := db.now + 1 }
  (.ok (formatBookResponse (fetchRelations db' row)), db')

/-- `BookService.createBook`: duplicate-ISBN pre-check (only when `isbn`
or `isbn13` is truthy), Conflict on a match, otherwise the create. -/
def createBook (bd : BookData) (db : Db) : Except AppError FormattedBook × Db :=
  if strTruthy bd.isbn || strTruthy bd.isbn13 then
    match db.books.find? (dupWhere bd.isbn bd.isbn13) with
    | some _ => (.error (.conflict "A book with this ISBN already exists"), db)
    | none => doCreateBook bd db
  else doCreateBook bd db

/-- The `where` clause built by `getBooks`. -/
structure WhereClause where
  titleContains : Option String
  format : Option String
  isActive : Option Bool
  isFeatured : Option Bool
deriving DecidableEq

/-- `getBooks` where-clause construction: `search`/`format` added when
truthy, `isActive`/`isFeatured` added when present as booleans. -/
def buildWhere (search format : Option String) (isActive isFeatured : Option Bool) :
    WhereClause :=
  { titleContains := if strTruthy search then search else none
    format := if strTruthy format then format else none
    isActive := isActive
    isFeatured := isFeatured }

/-- Row-level meaning of a `WhereClause`. -/
def matchesWhere (w : WhereClause) (b : BookRow) : Bool :=
  (match w.titleContains with
   | none => true
   | some s => containsInsensitive b.title s) &&
  (match w.format with
   | none => true
   | some f => b.format == f) &&
  (match w.isActive with
   | none => true
   | some v => b.isActive == v) &&
  (match w.isFeatured with
   | none => true
   | some v => b.isFeatured == v)

/-- `orderBy createdAt: "desc"` as a relation on rows. -/
def createdDescRel (a b : BookRow) : Prop := b.createdAt ≤ a.createdAt

instance : DecidableRel createdDescRel := fun a b => Nat.decLe b.createdAt a.createdAt

instance : IsTotal BookRow createdDescRel := ⟨fun a b => (Nat.le_total b.createdAt a.createdAt)⟩

instance : IsTrans BookRow createdDescRel := ⟨fun _ _ _ hab hbc => Nat.le_trans hbc hab⟩

/-- The store's creation-time-descending ordering of a result set. -/
def sortByCreatedAtDesc (l : List BookRow) : List BookRow :=
  List.insertionSort createdDescRel l

/-- `prisma.book.findMany` of `getBooks`: filter, order by `createdAt`
descending, then `skip`/`take`. -/
def findManyBooks (w : WhereClause) (skip take : Nat) (db : Db) : List BookRow :=
  ((sortByCreatedAtDesc (db.books.filter (matchesWhere w))).drop skip).take take

/-- `prisma.book.count` under the same where clause. -/
def countBooks (w : WhereClause) (db : Db) : Nat :=
  (db.books.filter (matchesWhere w)).length

/-- The pagination metadata object returned by `getBooks`. -/
structure PaginationMeta where
  page : Int
  limit : Int
  total : Nat
  totalPages : Int
  hasNext : Bool
  hasPrev : Bool
deriving DecidableEq

/-- The `getBooks` result: shaped books plus pagination metadata. -/
structure BooksPage where
  books : List FormattedBook
  pagination : PaginationMeta
deriving DecidableEq

/-- The `getBooks` options object; `none` models an absent property, with
the service defaults `page = 1`, `limit = 20` applied on destructuring. -/
structure GetBooksOptions where
  page : Option Int := none
  limit : Option Int := none
  search : Option String := none
  format : Option String := none
  isActive : Option Bool := none
  isFeatured : Option Bool := none
deriving DecidableEq

/-- `BookService.getBooks`: `skip = (page-1)*limit`, page fetch and total
count under one where clause, metadata with
`totalPages = Math.ceil(total/limit)`, `hasNext = page*limit < total`,
`hasPrev = page > 1`. -/
def getBooks (opts : GetBooksOptions) (db : Db) : BooksPage :=
  let page := opts.page.getD 1
  let limit := opts.limit.getD 20
  let skip := (page - 1) * limit
  let w := buildWhere opts.search opts.format opts.isActive opts.isFeatured
  let rows := findManyBooks w skip.toNat limit.toNat db
  let total := countBooks w db
  { books := rows.map (fun r => formatBookResponse (fetchRelations db r))
    pagination :=
      { page := page
        limit := limit
        total := total
        totalPages := ⌈(total : ℚ) / (limit : ℚ)⌉
        hasNext := decide ((page * limit : Int) < (total : Int))
        hasPrev := decide (1 < page) } }

/-- `BookService.getBookById`: relation-aware unique fetch, NotFound when
absent. -/
def getBookById (id : String) (db : Db) : Except AppError FormattedBook × Db :=
  match db.books.find? (fun b => b.id == id) with
  | none => (.error (.notFound "Book" id), db)
  | some row => (.ok (formatBookResponse (fetchRelations db row)), db)

/-- The `updateBook` payload: `none` on a field models an absent property
(present fields are applied, absent ones leave the column unchanged). -/
structure UpdateData where
  isbn : Option String := none
  isbn13 : Option String := none
  title : Option String := none
  subtitle : Option String := none
  description : Option String := none
  publisher : Option String := none
  publicationDate : Option String := none
  edition : Option String := none
  language : Option String := none
  pageCount : Option Int := none
  format : Option String := none
  price : Option ℚ := none
  discountPrice : Option ℚ := none
  stockQuantity : Option Int := none
  coverImageUrl : Option String := none
  previewUrl : Option String := none
  additionalInfo : Option (List (String × String)) := none
  isFeatured : Option Bool := none
  isActive : Option Bool := none
  averageRating : Option ℚ := none
  ratingsCount : Option Int := none
  authorIds : Option (List String) := none
  categoryIds : Option (List String) := none
deriving DecidableEq

/-- The row produced by `prisma.book.update`: `authorIds`/`categoryIds`
destructured away, `publicationDate` parsed when truthy, every other
present field (the `...data` rest spread, which includes client-supplied
`averageRating`/`ratingsCount`) applied over the existing row. -/
def applyUpdate (b : BookRow) (ud : UpdateData) (now : Nat) : BookRow :=
  { b with
    isbn := match ud.isbn with | some v => some v | none => b.isbn
    isbn13 := match ud.isbn13 with | some v => some v | none => b.isbn13
    title := match ud.title with | some v => v | none => b.title
    subtitle := match ud.subtitle with | some v => some v | none => b.subtitle
    description := match ud.description with | some v => v | none => b.description
    publisher := match ud.publisher with | some v => some v | none => b.publisher
    publicationDate :=
      match ud.publicationDate with
      | some s => if s == "" then b.publicationDate else some ⟨s⟩
      | none => b.publicationDate
    edition := match ud.edition with | some v => some v | none => b.edition
    language := match ud.language with | some v => v | none => b.language
    pageCount := match ud.pageCount with | some v => some v | none => b.pageCount
    format := match ud.format with | some v => v | none => b.format
    price := match ud.price with | some v => v | none => b.price
    discountPrice := match ud.discountPrice with | some v => some v | none => b.discountPrice
    stockQuantity := match ud.stockQuantity with | some v => v | none => b.stockQuantity
    coverImageUrl := match ud.coverImageUrl with | some v => v | none => b.coverImageUrl
    previewUrl := match ud.previewUrl with | some v => some v | none => b.previewUrl
    additionalInfo := match ud.additionalInfo with | some v => v | none => b.additionalInfo
    isFeatured := match ud.isFeatured with | some v => v | none => b.isFeatured
    isActive := match ud.isActive with | some v => v | none => b.isActive
    averageRating := match ud.averageRating with | some v => v | none => b.averageRating
    ratingsCount := match ud.ratingsCount with | some v => v | none => b.ratingsCount
    updatedAt := now }

/-- `BookService.updateBook`: NotFound when the Book does not exist,
otherwise update the row (relations untouched) and return the shaped
updated representation. -/
def updateBook (id : String) (ud : UpdateData) (db : Db) :
    Except AppError FormattedBook × Db :=
  match db.books.find? (fun b => b.id == id) with
  | none => (.error (.notFound "Book" id), db)
  | some existing =>
    let row := applyUpdate existing ud db.now
    let db' : Db :=
      { db with
        books := db.books.map (fun b => if b.id == id then row else b)
        now := db.now + 1 }
    (.ok (formatBookResponse (fetchRelations db' row)), db')

/-- `BookService.deleteBook`: NotFound when absent, otherwise remove the
Book row; the schema's `ON DELETE CASCADE` removes its join rows. -/
def deleteBook (id : String) (db : Db) : Except AppError Unit × Db :=
  match db.books.find? (fun b => b.id == id) with
  | none => (.error (.notFound "Book" id), db)
  | some _ =>
    (.ok (),
      { db with
        books := db.books.filter (fun b => b.id != id)
        bookAuthors := db.bookAuthors.filter (fun j => j.bookId != id)
        bookCategories := db.bookCategories.filter (fun j => j.bookId != id) })

/-- One raw issue as reported by the validation engine
(`validationResult(req).array()` entries). -/
structure RawValidationIssue where
  path : Option String
  param : Option String
  msg : String
  value : Option String
deriving DecidableEq

/-- The `validate` middleware's entry mapping:
`{field: err.path || err.param, message: err.msg, value: err.value}`. -/
def formatIssue (e : RawValidationIssue) : FieldError :=
  { field := if strTruthy e.path then e.path else e.param
    message := e.msg
    value := e.value }

/-- `validate` (`packages/shared/utils/validate.js`): pass through when no
issue was recorded, otherwise raise one ValidationError carrying every
formatted issue. -/
def validate (issues : List RawValidationIssue) : Except AppError Unit :=
  if issues.isEmpty then .ok ()
  else .error (.validation "Validation failed" (issues.map formatIssue))

/-- Modelled from the spec: one declared validation constraint of a rule
set (the express-validator engine itself is an external collaborator; per
the Validation Layer contract a constraint either passes or contributes
one field-addressable issue). -/
structure ValidationRule (π : Type) where
  check : π → Option RawValidationIssue

/-- Modelled from the spec: run the declared constraints of a rule set in
declaration order, collecting every issue. -/
def runRules {π : Type} (rs : List (ValidationRule π)) (p : π) :
    List RawValidationIssue :=
  rs.filterMap (fun r => r.check p)

/-- The ISBN-13 pattern of `createBookValidation`:
exactly 13 digits, or exactly 17 characters over digits and hyphens. -/
def isbn13Matches (s : String) : Bool :=
  (s.length == 13 && s.toList.all Char.isDigit) ||
  (s.length == 17 && s.toList.all (fun c => c.isDigit || c == '-'))

/-- The `isbn13` rule of `createBookValidation`: optional (skipped when
absent), otherwise the payload's value must match the ISBN-13 pattern. -/
def isbn13Rule : ValidationRule BookData :=
  ⟨fun bd =>
    match bd.isbn13 with
    | none => none
    | some s =>
      if isbn13Matches s then none
      else some ⟨some "isbn13", none, "Invalid ISBN-13 format", some s⟩⟩

/-- The claims carried by a decoded JWT (`none` models an absent claim). -/
structure TokenClaims where
  sub : Option String := none
  id : Option String := none
  email : Option String := none
  role : Option String := none
deriving DecidableEq

/-- The outcome of `jwt.verify`, an external collaborator: success with
decoded claims, or one of the failure kinds the middleware distinguishes. -/
inductive VerifyOutcome where
  | ok (claims : TokenClaims)
  | tokenExpired
  | jsonWebTokenError
  | otherError
deriving DecidableEq

/-- The `req.user` object attached by `authenticateToken`. -/
structure AuthedUser where
  id : Option String
  email : Option String
  role : Option String
deriving DecidableEq

/-- Split a character list on a separator, keeping empty segments
(the segment semantics of JS `String.prototype.split`). -/
def splitOnChar (sep : Char) : List Char → List (List Char)
  | [] => [[]]
  | c :: rest =>
    let r := splitOnChar sep rest
    if c == sep then [] :: r
    else
      match r with
      | [] => [[c]]
      | h :: t => (c :: h) :: t

/-- JS `header.split(" ")`. -/
def jsSplitSpace (s : String) : List String :=
  (splitOnChar ' ' s.toList).map (fun l => String.mk l)

/-- `authenticateToken` (shared auth middleware): missing or falsy header,
malformed `Bearer` format, and every `jwt.verify` failure map to an
Unauthorized outcome; on success the user object is attached
(`{id: decoded.sub || decoded.id, email, role, ...decoded}` — the trailing
spread restores `decoded.id` when present). -/
def authenticateToken (verify : String → VerifyOutcome) (authHeader : Option String) :
    Except AppError AuthedUser :=
  match authHeader with
  | none => .error (.unauthorized "No authorization token provided")
  | some h =>
    if h == "" then .error (.unauthorized "No authorization token provided")
    else
      match jsSplitSpace h with
      | [scheme, token] =>
        if scheme == "Bearer" then
          match verify token with
          | .ok c =>
            .ok { id := match c.id with
                        | some i => some i
                        | none => if strTruthy c.sub then c.sub else none
                  email := c.email
                  role := c.role }
          | .tokenExpired => .error (.unauthorized "Token has expired")
          | .jsonWebTokenError => .error (.unauthorized "Invalid token")
          | .otherError => .error (.unauthorized "Authentication failed")
        else .error (.unauthorized "Invalid authorization header format. Use: Bearer <token>")
      | _ => .error (.unauthorized "Invalid authorization header format. Use: Bearer <token>")

/-- `requireRole` (shared auth middleware) applied to an authenticated
request: Forbidden when the role claim is falsy or not in the allowed
list; `requireAdmin = requireRole("admin")`. -/
def requireRoleCheck (roles : List String) (user : Option AuthedUser) :
    Except AppError Unit :=
  match user with
  | none => .error (.unauthorized "Authentication required")
  | some u =>
    match u.role with
    | none =>
      .error (.forbidden ("Access denied. Required role: " ++ String.intercalate " or " roles))
    | some r =>
      if r == "" || !(roles.contains r) then
        .error (.forbidden ("Access denied. Required role: " ++ String.intercalate " or " roles))
      else .ok ()

/-- A request hitting the admin book routes. -/
structure BookRouteRequest where
  authHeader : Option String
  body : BookData

/-- The boundary outcome of a book-route request: an error forwarded to
the error middleware, or the created shaped book. -/
inductive RouteOutcome where
  | failed (e : AppError)
  | created (fb : FormattedBook)
deriving DecidableEq

/-- `POST /books` as wired in `admin-service/src/routes/bookRoutes.js`:
`router.use(authenticateToken())`, `router.use(requireAdmin)`, then the
controller — the route mounts no validation middleware before the
controller. -/
def postBooks (verify : String → VerifyOutcome) (req : BookRouteRequest) (db : Db) :
    RouteOutcome × Db :=
  match authenticateToken verify req.authHeader with
  | .error e => (.failed e, db)
  | .ok user =>
    match requireRoleCheck ["admin"] (some user) with
    | .error e => (.failed e, db)
    | .ok _ =>
      match createBook req.body db with
      | (.ok fb, db') => (.created fb, db')
      | (.error e, db') => (.failed e, db')

/-- Whether a route outcome is a ValidationError rejection. -/
def isValidationFailure : RouteOutcome → Bool
  | .failed (.validation _ _) => true
  | _ => false

/-- The raw query-string parameters of `GET /books` (each `none` when the
parameter is absent). -/
structure ListQuery where
  page : Option String := none
  limit : Option String := none
  search : Option String := none
  format : Option String := none
  isActive : Option String := none
  isFeatured : Option String := none
deriving DecidableEq

/-- `BookController.list` query coercion: `parseInt(page,10) || 1`,
`parseInt(limit,10) || 20`, and the flags applied only when the string is
exactly `"true"` or `"false"`, otherwise `undefined`. -/
def listOptions (q : ListQuery) : GetBooksOptions :=
  { page := some (jsOrInt (jsParseInt q.page) 1)
    limit := some (jsOrInt (jsParseInt q.limit) 20)
    search := q.search
    format := q.format
    isActive :=
      if q.isActive == some "true" then some true
      else if q.isActive == some "false" then some false
      else none
    isFeatured :=
      if q.isFeatured == some "true" then some true
      else if q.isFeatured == some "false" then some false
      else none }

/-- `BookController.list`: coerce the query parameters and call the
service. -/
def controllerList (q : ListQuery) (db : Db) : BooksPage :=
  getBooks (listOptions q) db

/-! Concrete sample data used to instantiate the theorems. -/

/-- The empty store. -/
def emptyDb : Db :=
  { books := [], authors := [], categories := [], bookAuthors := [],
    bookCategories := [], nextId := 1, now := 0 }

/-- A stored Book row with the given id and creation time. -/
def mkSampleRow (id : String) (created : Nat) : BookRow :=
  { id := id, isbn := none, isbn13 := none, title := "Title " ++ id,
    subtitle := none, description := "desc", publisher := none,
    publicationDate := none, edition := none, language := "en",
    pageCount := none, format := "EBOOK", price := 10, discountPrice := none,
    stockQuantity := 0, coverImageUrl := "https://img.example/c.png",
    previewUrl := none, averageRating := 0, ratingsCount := 0,
    additionalInfo := [], isFeatured := false, isActive := true,
    createdAt := created, updatedAt := created }

/-- A minimal valid creation payload. -/
def sampleBookData : BookData :=
  { title := "Title", description := "desc", format := "EBOOK", price := 10,
    coverImageUrl := "https://img.example/c.png" }

/-- A store holding one Book whose `isbn` is `0306406152`. -/
def dbWithIsbn : Db :=
  { emptyDb with books := [{ mkSampleRow "1" 0 with isbn := some "0306406152" }] }

/-- A creation payload colliding with the stored `isbn`. -/
def bdDupIsbn : BookData := { sampleBookData with isbn := some "0306406152" }

/-- The spec scenario payload: `authorIds = [A2, A1]`,
`categoryIds = [C3, C1]`. -/
def bdScenario : BookData :=
  { sampleBookData with
    authorIds := some ["A2", "A1"], categoryIds := some ["C3", "C1"] }

/-- A store holding three Books with distinct creation times. -/
def dbThree : Db :=
  { emptyDb with
    books := [mkSampleRow "1" 0, mkSampleRow "2" 1, mkSampleRow "3" 2],
    nextId := 4, now := 3 }

/-- A store holding one Book with id `1`. -/
def dbOne : Db := { emptyDb with books := [mkSampleRow "1" 0], nextId := 2, now := 1 }

/-- An update payload supplying `averageRating = 5` and nothing else. -/
def udRatingFive : UpdateData := { averageRating := some 5 }

/-- An update payload supplying `averageRating = 2` and nothing else. -/
def udRatingTwo : UpdateData := { averageRating := some 2 }

/-- An update payload supplying only `stockQuantity = 5`
(the spec's update scenario). -/
def udStockFive : UpdateData := { stockQuantity := some 5 }

/-- A structurally invalid creation payload: `isbn13` is `"123"`. -/
def badCreateBody : BookData := { sampleBookData with isbn13 := some "123" }

/-- A token verifier accepting every token with admin claims. -/
def adminVerify : String → VerifyOutcome :=
  fun _ => .ok { sub := some "u1", email := some "admin@example.com", role := some "admin" }

/-- A token verifier rejecting every token as expired. -/
def expiredVerify : String → VerifyOutcome := fun _ => .tokenExpired

/-- An authenticated admin request carrying the invalid `isbn13` payload. -/
def badCreateReq : BookRouteRequest :=
  { authHeader := some "Bearer sometoken", body := badCreateBody }

/-- List options for the first page of two rows. -/
def sampleListOpts : GetBooksOptions := { page := some 1, limit := some 2 }

/-- A raw list query carrying junk flag and pagination values. -/
def junkListQuery : ListQuery :=
  { page := some "abc", limit := none, isActive := some "yes", isFeatured := some "1" }

/-! Helper lemmas. -/

/-- Pointwise meaning of the duplicate-lookup predicate. -/
theorem dupWhere_iff (i1 i2 : Option String) (b : BookRow) :
    dupWhere i1 i2 b = true ↔
      (strTruthy i1 = true ∧ b.isbn = i1) ∨ (strTruthy i2 = true ∧ b.isbn13 = i2) := by
  simp [dupWhere, Bool.or_eq_true, Bool.and_eq_true, beq_iff_eq]

/-- C1: a create call supplying `isbn` or `isbn13` first looks the pair up
with an OR over the supplied values; on a match it fails with the Conflict
error `A book with this ISBN already exists` and leaves the store
untouched, otherwise it proceeds to the plain create; a call supplying
neither skips the duplicate lookup and goes straight to the create. -/
theorem createBook_isbn_conflict (bd : BookData) (db : Db) :
    ((strTruthy bd.isbn || strTruthy bd.isbn13) = true →
      ((∃ b ∈ db.books,
          (strTruthy bd.isbn = true ∧ b.isbn = bd.isbn) ∨
          (strTruthy bd.isbn13 = true ∧ b.isbn13 = bd.isbn13)) →
        createBook bd db = (.error (.conflict "A book with this ISBN already exists"), db)) ∧
      ((∀ b ∈ db.books,
          ¬ ((strTruthy bd.isbn = true ∧ b.isbn = bd.isbn) ∨
             (strTruthy bd.isbn13 = true ∧ b.isbn13 = bd.isbn13))) →
        createBook bd db = doCreateBook bd db)) ∧
    ((strTruthy bd.isbn || strTruthy bd.isbn13) = false →
      createBook bd db = doCreateBook bd db) := by
  refine ⟨fun hsup => ⟨fun hex => ?_, fun hnone => ?_⟩, fun hnot => ?_⟩
  · obtain ⟨b, hb, hmatch⟩ := hex
    have hsome : (db.books.find? (dupWhere bd.isbn bd.isbn13)).isSome := by
      rw [List.find?_isSome]
      exact ⟨b, hb, (dupWhere_iff _ _ _).2 hmatch⟩
    obtain ⟨x, hx⟩ := Option.isSome_iff_exists.1 hsome
    simp [createBook, hsup, hx]
  · have hfind : db.books.find? (dupWhere bd.isbn bd.isbn13) = none := by
      rw [List.find?_eq_none]
      exact fun x hx hdx => hnone x hx ((dupWhere_iff _ _ _).1 hdx)
    simp [createBook, hsup, hfind]
  · simp [createBook, hnot]

/-- Length of the nested-created author join rows. -/
theorem mkAuthorJoins_length (bid : String) (k : Nat) (ids : List String) :
    (mkAuthorJoins bid k ids).length = ids.length := by
  induction ids generalizing k with
  | nil => simp [mkAuthorJoins]
  | cons a rest ih => simp [mkAuthorJoins, ih]

/-- Length of the nested-created category join rows. -/
theorem mkCategoryJoins_length (bid : String) (k : Nat) (ids : List String) :
    (mkCategoryJoins bid k ids).length = ids.length := by
  induction ids generalizing k with
  | nil => simp [mkCategoryJoins]
  | cons a rest ih => simp [mkCategoryJoins, ih]

/-- Pointwise shape of the nested-created author join rows. -/
theorem mkAuthorJoins_get (bid : String) (ids : List String) (k i : Nat)
    (h1 : i < ids.length) (h2 : i < (mkAuthorJoins bid k ids).length) :
    (mkAuthorJoins bid k ids).get ⟨i, h2⟩ =
      ⟨bid, ids.get ⟨i, h1⟩, k + i + 1⟩ := by
  induction ids generalizing k i with
  | nil => simp at h1
  | cons a rest ih =>
    cases i with
    | zero => simp [mkAuthorJoins]
    | succ n =>
      have hn1 : n < rest.length := by simpa using h1
      have hn2 : n < (mkAuthorJoins bid (k + 1) rest).length := by
        rw [mkAuthorJoins_length]; exact hn1
      have := ih (k + 1) n hn1 hn2
      simp only [mkAuthorJoins, List.get_cons_succ]
      rw [this]
      congr 1
      omega

/-- Pointwise shape of the nested-created category join rows. -/
theorem mkCategoryJoins_get (bid : String) (ids : List String) (k i : Nat)
    (h1 : i < ids.length) (h2 : i < (mkCategoryJoins bid k ids).length) :
    (mkCategoryJoins bid k ids).get ⟨i, h2⟩ =
      ⟨bid, ids.get ⟨i, h1⟩, decide (k + i = 0)⟩ := by
  induction ids generalizing k i with
  | nil => simp at h1
  | cons a rest ih =>
    cases i with
    | zero =>
      simp only [mkCategoryJoins, List.get_cons_zero]
      congr 1
    | succ n =>
      have hn1 : n < rest.length := by simpa using h1
      have hn2 : n < (mkCategoryJoins bid (k + 1) rest).length := by
        rw [mkCategoryJoins_length]; exact hn1
      have := ih (k + 1) n hn1 hn2
      simp only [mkCategoryJoins, List.get_cons_succ]
      rw [this]
      congr 1
      have : k + 1 + n = k + (n + 1) := by omega
      rw [this]

/-- Closed instance of the C1 theorem: creating a book whose `isbn`
collides with the stored book of `dbWithIsbn` is rejected with the
Conflict error and the store is returned unchanged. -/
theorem createBook_isbn_conflict_witness :
    createBook bdDupIsbn dbWithIsbn =
      (.error (.conflict "A book with this ISBN already exists"), dbWithIsbn) :=
  ((createBook_isbn_conflict bdDupIsbn dbWithIsbn).1 (by decide)).1
    ⟨{ mkSampleRow "1" 0 with isbn := some "0306406152" }, by decide,
      Or.inl ⟨by decide, by decide⟩⟩

/-- C2: a successful create appends one `BookAuthor` join row per supplied
author identifier, carrying `authorOrder = 1-based position`, and one
`BookCategory` join row per supplied category identifier, carrying
`isPrimary` exactly at position 0; empty identifier lists create no join
rows. -/
theorem createBook_join_rows (bd : BookData) (db : Db)
    (h : (strTruthy bd.isbn || strTruthy bd.isbn13) = false ∨
         db.books.find? (dupWhere bd.isbn bd.isbn13) = none) :
    (createBook bd db).2.bookAuthors =
      db.bookAuthors ++ mkAuthorJoins (toString db.nextId) 0 (bd.authorIds.getD []) ∧
    (createBook bd db).2.bookCategories =
      db.bookCategories ++ mkCategoryJoins (toString db.nextId) 0 (bd.categoryIds.getD []) ∧
    (∀ (bid : String) (ids : List String) (i : Nat) (h1 : i < ids.length)
        (h2 : i < (mkAuthorJoins bid 0 ids).length),
      (mkAuthorJoins bid 0 ids).get ⟨i, h2⟩ = ⟨bid, ids.get ⟨i, h1⟩, i + 1⟩) ∧
    (∀ (bid : String) (ids : List String) (i : Nat) (h1 : i < ids.length)
        (h2 : i < (mkCategoryJoins bid 0 ids).length),
      (mkCategoryJoins bid 0 ids).get ⟨i, h2⟩ =
        ⟨bid, ids.get ⟨i, h1⟩, decide (i = 0)⟩) ∧
    (bd.authorIds.getD [] = [] →
      (createBook bd db).2.bookAuthors = db.bookAuthors) ∧
    (bd.categoryIds.getD [] = [] →
      (createBook bd db).2.bookCategories = db.bookCategories) := by
  have hcb : createBook bd db = doCreateBook bd db := by
    rcases h with h | h
    · simp [createBook, h]
    · cases hcond : (strTruthy bd.isbn || strTruthy bd.isbn13) with
      | false => simp [createBook, hcond]
      | true => simp [createBook, hcond, h]
  refine ⟨?_, ?_, ?_, ?_, ?_, ?_⟩
  · rw [hcb]; rfl
  · rw [hcb]; rfl
  · intro bid ids i h1 h2
    have hg := mkAuthorJoins_get bid ids 0 i h1 h2
    simpa using hg
  · intro bid ids i h1 h2
    have hg := mkCategoryJoins_get bid ids 0 i h1 h2
    simpa using hg
  · intro he
    rw [hcb]
    simp [doCreateBook, he, mkAuthorJoins]
  · intro he
    rw [hcb]
    simp [doCreateBook, he, mkCategoryJoins]

/-- Closed instance of the C2 theorem at the spec scenario
(`authorIds = [A2, A1]`, `categoryIds = [C3, C1]` on the empty store). -/
theorem createBook_join_rows_witness :
    (createBook bdScenario emptyDb).2.bookAuthors =
      emptyDb.bookAuthors ++
        mkAuthorJoins (toString emptyDb.nextId) 0 (bdScenario.authorIds.getD []) ∧
    (createBook bdScenario emptyDb).2.bookCategories =
      emptyDb.bookCategories ++
        mkCategoryJoins (toString emptyDb.nextId) 0 (bdScenario.categoryIds.getD []) ∧
    (∀ (bid : String) (ids : List String) (i : Nat) (h1 : i < ids.length)
        (h2 : i < (mkAuthorJoins bid 0 ids).length),
      (mkAuthorJoins bid 0 ids).get ⟨i, h2⟩ = ⟨bid, ids.get ⟨i, h1⟩, i + 1⟩) ∧
    (∀ (bid : String) (ids : List String) (i : Nat) (h1 : i < ids.length)
        (h2 : i < (mkCategoryJoins bid 0 ids).length),
      (mkCategoryJoins bid 0 ids).get ⟨i, h2⟩ =
        ⟨bid, ids.get ⟨i, h1⟩, decide (i = 0)⟩) ∧
    (bdScenario.authorIds.getD [] = [] →
      (createBook bdScenario emptyDb).2.bookAuthors = emptyDb.bookAuthors) ∧
    (bdScenario.categoryIds.getD [] = [] →
      (createBook bdScenario emptyDb).2.bookCategories = emptyDb.bookCategories) :=
  createBook_join_rows bdScenario emptyDb (Or.inl (by decide))

/-- C3: for a list call with `page ≥ 1` and `limit ∈ [1,100]`, `getBooks`
skips exactly `(page-1)*limit` rows of the filtered set ordered by
creation time descending, returns at most `limit` rows (still in
descending creation order), and its metadata satisfies
`total = count under the same filter`, `totalPages = ceil(total/limit)`
(characterized as the least page count covering `total`),
`hasNext = page*limit < total` and `hasPrev = page > 1`. -/
theorem getBooks_pagination (opts : GetBooksOptions) (db : Db) (page limit : Int)
    (hpage : opts.page = some page) (hlimit : opts.limit = some limit)
    (hp : 1 ≤ page) (hl1 : 1 ≤ limit) (hl2 : limit ≤ 100) :
    (getBooks opts db).books =
      (((sortByCreatedAtDesc (db.books.filter (matchesWhere
            (buildWhere opts.search opts.format opts.isActive opts.isFeatured)))).drop
          (((page - 1) * limit).toNat)).take limit.toNat).map
        (fun r => formatBookResponse (fetchRelations db r)) ∧
    (getBooks opts db).books.length ≤ limit.toNat ∧
    List.Sorted (fun a b : FormattedBook => b.createdAt ≤ a.createdAt)
      (getBooks opts db).books ∧
    (getBooks opts db).pagination.total =
      countBooks (buildWhere opts.search opts.format opts.isActive opts.isFeatured) db ∧
    (getBooks opts db).pagination.totalPages =
      ⌈((countBooks (buildWhere opts.search opts.format opts.isActive opts.isFeatured) db : ℚ)) /
        (limit : ℚ)⌉ ∧
    ((countBooks (buildWhere opts.search opts.format opts.isActive opts.isFeatured) db : ℚ) ≤
      ((getBooks opts db).pagination.totalPages : ℚ) * (limit : ℚ)) ∧
    (((getBooks opts db).pagination.totalPages : ℚ) - 1) * (limit : ℚ) <
      (countBooks (buildWhere opts.search opts.format opts.isActive opts.isFeatured) db : ℚ) ∧
    (getBooks opts db).pagination.hasNext =
      decide ((page * limit : Int) <
        (countBooks (buildWhere opts.search opts.format opts.isActive opts.isFeatured) db : Int)) ∧
    (getBooks opts db).pagination.hasPrev = decide (1 < page) := by
  have hlq : (0 : ℚ) < (limit : ℚ) := by
    have : (0 : Int) < limit := by omega
    exact_mod_cast this
  refine ⟨?_, ?_, ?_, ?_, ?_, ?_, ?_, ?_, ?_⟩
  · simp [getBooks, hpage, hlimit, findManyBooks]
  · simp only [getBooks, hpage, hlimit, findManyBooks]
    rw [List.length_map]
    exact List.length_take_le _ _
  · simp only [getBooks, hpage, hlimit, findManyBooks]
    have hsorted : List.Sorted createdDescRel
        (sortByCreatedAtDesc (db.books.filter (matchesWhere
          (buildWhere opts.search opts.format opts.isActive opts.isFeatured)))) :=
      List.sorted_insertionSort createdDescRel _
    have hsub :
        ((((sortByCreatedAtDesc (db.books.filter (matchesWhere
            (buildWhere opts.search opts.format opts.isActive opts.isFeatured)))).drop
            (((page - 1) * limit).toNat)).take limit.toNat)).Sublist
          (sortByCreatedAtDesc (db.books.filter (matchesWhere
            (buildWhere opts.search opts.format opts.isActive opts.isFeatured)))) :=
      (List.take_sublist _ _).trans (List.drop_sublist _ _)
    have hsorted2 := List.Pairwise.sublist hsub hsorted
    exact List.Pairwise.map _ (fun a b hab => hab) hsorted2
  · simp [getBooks, hpage, hlimit]
  · simp [getBooks, hpage, hlimit]
  · simp only [getBooks, hpage, hlimit, Option.getD_some]
    have hle := Int.le_ceil ((countBooks (buildWhere opts.search opts.format opts.isActive
      opts.isFeatured) db : ℚ) / (limit : ℚ))
    rw [div_le_iff hlq] at hle
    exact hle
  · simp only [getBooks, hpage, hlimit, Option.getD_some]
    have hlt := Int.ceil_lt_add_one ((countBooks (buildWhere opts.search opts.format
      opts.isActive opts.isFeatured) db : ℚ) / (limit : ℚ))
    have hlt2 : (⌈((countBooks (buildWhere opts.search opts.format opts.isActive
        opts.isFeatured) db : ℚ)) / (limit : ℚ)⌉ : ℚ) - 1 <
        (countBooks (buildWhere opts.search opts.format opts.isActive opts.isFeatured) db : ℚ) /
          (limit : ℚ) := by linarith
    rw [← lt_div_iff hlq]
    exact hlt2
  · simp [getBooks, hpage, hlimit]
  · simp [getBooks, hpage, hlimit]

/-- Closed instance of the C3 theorem: first page of two rows over the
three-book store. -/
theorem getBooks_pagination_witness :
    (getBooks sampleListOpts dbThree).books =
      (((sortByCreatedAtDesc (dbThree.books.filter (matchesWhere
            (buildWhere sampleListOpts.search sampleListOpts.format
              sampleListOpts.isActive sampleListOpts.isFeatured)))).drop
          ((((1 : Int) - 1) * 2).toNat)).take (2 : Int).toNat).map
        (fun r => formatBookResponse (fetchRelations dbThree r)) ∧
    (getBooks sampleListOpts dbThree).books.length ≤ (2 : Int).toNat ∧
    List.Sorted (fun a b : FormattedBook => b.createdAt ≤ a.createdAt)
      (getBooks sampleListOpts dbThree).books ∧
    (getBooks sampleListOpts dbThree).pagination.total =
      countBooks (buildWhere sampleListOpts.search sampleListOpts.format
        sampleListOpts.isActive sampleListOpts.isFeatured) dbThree ∧
    (getBooks sampleListOpts dbThree).pagination.totalPages =
      ⌈((countBooks (buildWhere sampleListOpts.search sampleListOpts.format
          sampleListOpts.isActive sampleListOpts.isFeatured) dbThree : ℚ)) / ((2 : Int) : ℚ)⌉ ∧
    ((countBooks (buildWhere sampleListOpts.search sampleListOpts.format
        sampleListOpts.isActive sampleListOpts.isFeatured) dbThree : ℚ) ≤
      ((getBooks sampleListOpts dbThree).pagination.totalPages : ℚ) * ((2 : Int) : ℚ)) ∧
    (((getBooks sampleListOpts dbThree).pagination.totalPages : ℚ) - 1) * ((2 : Int) : ℚ) <
      (countBooks (buildWhere sampleListOpts.search sampleListOpts.format
        sampleListOpts.isActive sampleListOpts.isFeatured) dbThree : ℚ) ∧
    (getBooks sampleListOpts dbThree).pagination.hasNext =
      decide (((1 : Int) * 2 : Int) <
        (countBooks (buildWhere sampleListOpts.search sampleListOpts.format
          sampleListOpts.isActive sampleListOpts.isFeatured) dbThree : Int)) ∧
    (getBooks sampleListOpts dbThree).pagination.hasPrev = decide ((1 : Int) < 1) :=
  getBooks_pagination sampleListOpts dbThree 1 2 rfl rfl (by decide) (by decide) (by decide)

/-- C5 counterexample: two update payloads differing only in the supplied
`averageRating` (5 vs 2) produce different stored states — `updateBook`
forwards client-supplied rating fields to the store. -/
theorem update_ratings_counterexample :
    (updateBook "1" udRatingFive dbOne).2 ≠ (updateBook "1" udRatingTwo dbOne).2 := by
  decide

/-- C5 (amended): `createBook` ignores client-supplied
`averageRating`/`ratingsCount` (payloads differing only in those fields
create identical state), but `updateBook` forwards any supplied
`averageRating`/`ratingsCount` through its rest spread, so they overwrite
the stored values. -/
theorem ratings_create_ignores_update_forwards (bd : BookData) (db : Db)
    (avg : Option ℚ) (cnt : Option Int) :
    createBook { bd with averageRating := avg, ratingsCount := cnt } db =
      createBook bd db ∧
    (∀ (id : String) (b : BookRow) (ud : UpdateData),
      db.books.find? (fun x => x.id == id) = some b →
      (updateBook id ud db).2.books =
        db.books.map (fun x => if x.id == id then applyUpdate b ud db.now else x) ∧
      (applyUpdate b ud db.now).averageRating =
        (match ud.averageRating with | some q => q | none => b.averageRating) ∧
      (applyUpdate b ud db.now).ratingsCount =
        (match ud.ratingsCount with | some n => n | none => b.ratingsCount)) := by
  refine ⟨rfl, fun id b ud h => ⟨?_, rfl, rfl⟩⟩
  simp [updateBook, h]

/-- Closed instance of the amended C5 theorem: create ignores the rating
fields on the empty store; update with `averageRating = 5` on `dbOne`
stores 5. -/
theorem ratings_create_ignores_update_forwards_witness :
    createBook { sampleBookData with averageRating := some 5, ratingsCount := some 3 } emptyDb =
      createBook sampleBookData emptyDb ∧
    (applyUpdate (mkSampleRow "1" 0) udRatingFive dbOne.now).averageRating =
      (match udRatingFive.averageRating with
       | some q => q
       | none => (mkSampleRow "1" 0).averageRating) :=
  ⟨(ratings_create_ignores_update_forwards sampleBookData emptyDb (some 5) (some 3)).1,
   ((ratings_create_ignores_update_forwards sampleBookData dbOne none none).2
      "1" (mkSampleRow "1" 0) udRatingFive (by decide)).2.1⟩

/-- C6: update on an existing Book changes only the scalar fields present
in the payload — author/category identifier lists are stripped and the
join rows are untouched, `publicationDate` is parsed as a date when
supplied (truthy), absent fields retain their prior values, and the
shaped, re-fetched representation is returned. -/
theorem updateBook_scalar_frame (db : Db) (id : String) (b : BookRow) (ud : UpdateData)
    (h : db.books.find? (fun x => x.id == id) = some b) :
    (updateBook id ud db).1 =
      .ok (formatBookResponse
        (fetchRelations (updateBook id ud db).2 (applyUpdate b ud db.now))) ∧
    (updateBook id ud db).2.books =
      db.books.map (fun x => if x.id == id then applyUpdate b ud db.now else x) ∧
    (updateBook id ud db).2.bookAuthors = db.bookAuthors ∧
    (updateBook id ud db).2.bookCategories = db.bookCategories ∧
    (∀ aids cids,
      updateBook id { ud with authorIds := aids, categoryIds := cids } db =
        updateBook id ud db) ∧
    (∀ s, ud.publicationDate = some s → s ≠ "" →
      (applyUpdate b ud db.now).publicationDate = some ⟨s⟩) ∧
    (ud.publicationDate = none →
      (applyUpdate b ud db.now).publicationDate = b.publicationDate) ∧
    (applyUpdate b ud db.now).isbn =
      (match ud.isbn with | some v => some v | none => b.isbn) ∧
    (applyUpdate b ud db.now).isbn13 =
      (match ud.isbn13 with | some v => some v | none => b.isbn13) ∧
    (applyUpdate b ud db.now).title =
      (match ud.title with | some v => v | none => b.title) ∧
    (applyUpdate b ud db.now).subtitle =
      (match ud.subtitle with | some v => some v | none => b.subtitle) ∧
    (applyUpdate b ud db.now).description =
      (match ud.description with | some v => v | none => b.description) ∧
    (applyUpdate b ud db.now).publisher =
      (match ud.publisher with | some v => some v | none => b.publisher) ∧
    (applyUpdate b ud db.now).edition =
      (match ud.edition with | some v => some v | none => b.edition) ∧
    (applyUpdate b ud db.now).language =
      (match ud.language with | some v => v | none => b.language) ∧
    (applyUpdate b ud db.now).pageCount =
      (match ud.pageCount with | some v => some v | none => b.pageCount) ∧
    (applyUpdate b ud db.now).format =
      (match ud.format with | some v => v | none => b.format) ∧
    (applyUpdate b ud db.now).price =
      (match ud.price with | some v => v | none => b.price) ∧
    (applyUpdate b ud db.now).discountPrice =
      (match ud.discountPrice with | some v => some v | none => b.discountPrice) ∧
    (applyUpdate b ud db.now).stockQuantity =
      (match ud.stockQuantity with | some v => v | none => b.stockQuantity) ∧
    (applyUpdate b ud db.now).coverImageUrl =
      (match ud.coverImageUrl with | some v => v | none => b.coverImageUrl) ∧
    (applyUpdate b ud db.now).previewUrl =
      (match ud.previewUrl with | some v => some v | none => b.previewUrl) ∧
    (applyUpdate b ud db.now).additionalInfo =
      (match ud.additionalInfo with | some v => v | none => b.additionalInfo) ∧
    (applyUpdate b ud db.now).isFeatured =
      (match ud.isFeatured with | some v => v | none => b.isFeatured) ∧
    (applyUpdate b ud db.now).isActive =
      (match ud.isActive with | some v => v | none => b.isActive) ∧
    (applyUpdate b ud db.now).createdAt = b.createdAt ∧
    (applyUpdate b ud db.now).updatedAt = db.now := by
  refine ⟨?_, ?_, ?_, ?_, fun aids cids => rfl, ?_, ?_,
    rfl, rfl, rfl, rfl, rfl, rfl, rfl, rfl, rfl, rfl, rfl, rfl, rfl, rfl,
    rfl, rfl, rfl, rfl, rfl, rfl⟩
  · simp [updateBook, h]
  · simp [updateBook, h]
  · simp [updateBook, h]
  · simp [updateBook, h]
  · intro s hs hne
    simp [applyUpdate, hs, hne]
  · intro hn
    simp [applyUpdate, hn]

/-- Closed instance of the C6 theorem: updating only `stockQuantity`
leaves the join rows of `dbOne` unchanged and retains the stored title. -/
theorem updateBook_scalar_frame_witness :
    (updateBook "1" udStockFive dbOne).2.bookAuthors = dbOne.bookAuthors ∧
    (applyUpdate (mkSampleRow "1" 0) udStockFive dbOne.now).title =
      (match udStockFive.title with
       | some v => v
       | none => (mkSampleRow "1" 0).title) :=
  ⟨(updateBook_scalar_frame dbOne "1" (mkSampleRow "1" 0) udStockFive (by decide)).2.2.1,
   (updateBook_scalar_frame dbOne "1" (mkSampleRow "1" 0) udStockFive
      (by decide)).2.2.2.2.2.2.2.2.2.1⟩

/-- After a delete, no row with the deleted id remains findable. -/
theorem deleteBook_find_none (id : String) (db : Db) :
    (deleteBook id db).2.books.find? (fun b => b.id == id) = none := by
  cases hfind : db.books.find? (fun b => b.id == id) with
  | none => simp [deleteBook, hfind]
  | some x =>
    simp only [deleteBook, hfind]
    rw [List.find?_eq_none]
    intro y hy
    have := (List.mem_filter.1 hy).2
    simp only [bne_iff_ne, ne_eq] at this
    simp [this]

/-- C7: on an identifier with no stored Book, `getBookById`, `updateBook`
and `deleteBook` each fail with the `NotFoundError` raised as
`NotFoundError("Book", id)` — a 404 `NOT_FOUND` error whose message names
the resource and identifier — and leave the store unchanged; moreover a
delete followed by a second delete, or by a get, yields NotFound on the
second operation. -/
theorem book_not_found_ops (db : Db) (id : String) :
    (db.books.find? (fun b => b.id == id) = none →
      getBookById id db = (.error (.notFound "Book" id), db) ∧
      (∀ ud, updateBook id ud db = (.error (.notFound "Book" id), db)) ∧
      deleteBook id db = (.error (.notFound "Book" id), db)) ∧
    deleteBook id (deleteBook id db).2 =
      (.error (.notFound "Book" id), (deleteBook id db).2) ∧
    getBookById id (deleteBook id db).2 =
      (.error (.notFound "Book" id), (deleteBook id db).2) ∧
    (AppError.notFound "Book" id).statusCode = 404 ∧
    (AppError.notFound "Book" id).code = "NOT_FOUND" ∧
    (id ≠ "" → (AppError.notFound "Book" id).message =
      "Book with identifier " ++ singleQuote ++ id ++ singleQuote ++ " not found") := by
  refine ⟨fun h => ⟨?_, fun ud => ?_, ?_⟩, ?_, ?_, rfl, rfl, fun h2 => ?_⟩
  · simp [getBookById, h]
  · simp [updateBook, h]
  · simp [deleteBook, h]
  · have hn := deleteBook_find_none id db
    generalize hdb2 : (deleteBook id db).2 = db2 at hn ⊢
    simp [deleteBook, hn]
  · have hn := deleteBook_find_none id db
    generalize hdb2 : (deleteBook id db).2 = db2 at hn ⊢
    simp [getBookById, hn]
  · simp [AppError.message, h2]

/-- Closed instance of the C7 theorem: getting a missing id from the empty
store yields NotFound, and a repeated delete on `dbOne` yields NotFound. -/
theorem book_not_found_ops_witness :
    getBookById "9" emptyDb = (.error (.notFound "Book" "9"), emptyDb) ∧
    deleteBook "1" (deleteBook "1" dbOne).2 =
      (.error (.notFound "Book" "1"), (deleteBook "1" dbOne).2) :=
  ⟨((book_not_found_ops emptyDb "9").1 (by decide)).1,
   (book_not_found_ops dbOne "1").2.1⟩

/-- C8: for a payload violating one or more declared constraints, the
single `ValidationError` raised by `validate` (a 400 `VALIDATION_ERROR`
whose `errors` list is the class's second constructor argument) carries
one formatted `(field, message, value)` entry per failing constraint, in
declaration order (the formatted list maps the collected issues
pointwise), and every detected problem appears in it; a payload with no
failing constraint passes through. -/
theorem validate_enumerates {π : Type} (rs : List (ValidationRule π)) (p : π) :
    (runRules rs p = [] → validate (runRules rs p) = .ok ()) ∧
    (runRules rs p ≠ [] →
      validate (runRules rs p) =
        .error (.validation "Validation failed" ((runRules rs p).map formatIssue))) ∧
    ((runRules rs p).map formatIssue).length = (runRules rs p).length ∧
    (∀ (i : Nat) (h1 : i < (runRules rs p).length)
        (h2 : i < ((runRules rs p).map formatIssue).length),
      ((runRules rs p).map formatIssue).get ⟨i, h2⟩ =
        formatIssue ((runRules rs p).get ⟨i, h1⟩)) ∧
    (∀ r ∈ rs, ∀ e, r.check p = some e →
      formatIssue e ∈ (runRules rs p).map formatIssue) ∧
    (∀ (m : String) (errs : List FieldError),
      (AppError.validation m errs).statusCode = 400 ∧
      (AppError.validation m errs).code = "VALIDATION_ERROR") := by
  refine ⟨fun h => ?_, fun h => ?_, List.length_map _ _, fun i h1 h2 => ?_, ?_,
    fun m errs => ⟨rfl, rfl⟩⟩
  · simp [validate, h]
  · simp [validate, h]
  · simp [List.get_map]
  · intro r hr e he
    exact List.mem_map_of_mem _ (List.mem_filterMap.2 ⟨r, hr, he⟩)

/-- Closed instance of the C8 theorem: the `isbn13` rule applied to the
payload with `isbn13 = "123"` yields one ValidationError listing the
formatted issue. -/
theorem validate_enumerates_witness :
    validate (runRules [isbn13Rule] badCreateBody) =
      .error (.validation "Validation failed"
        ((runRules [isbn13Rule] badCreateBody).map formatIssue)) :=
  (validate_enumerates [isbn13Rule] badCreateBody).2.1 (by decide)

/-- Every failure of `authenticateToken` is an Unauthorized error. -/
theorem authenticateToken_error_unauthorized (verify : String → VerifyOutcome)
    (ah : Option String) (e : AppError)
    (h : authenticateToken verify ah = .error e) : ∃ m, e = .unauthorized m := by
  unfold authenticateToken at h
  repeat' split at h
  any_goals (injection h with h3; exact ⟨_, h3.symm⟩)
  all_goals exact absurd h (by simp)

/-- C9: on the admin book route, any authentication failure (missing
header, malformed header, expired or otherwise invalid token) produces an
`UnauthorizedError` (401 `UNAUTHORIZED`) outcome and leaves the store
untouched, before any role check; a verified credential whose role claim
is not `admin` produces the `ForbiddenError` (403 `FORBIDDEN`) outcome;
the controller runs exactly when both checks pass. -/
theorem auth_gate (verify : String → VerifyOutcome) (req : BookRouteRequest) (db : Db) :
    (req.authHeader = none →
      postBooks verify req db =
        (.failed (.unauthorized "No authorization token provided"), db)) ∧
    (∀ e, authenticateToken verify req.authHeader = .error e →
      postBooks verify req db = (.failed e, db) ∧ ∃ m, e = .unauthorized m) ∧
    (∀ h tk, req.authHeader = some h → h ≠ "" → jsSplitSpace h = ["Bearer", tk] →
      verify tk = .tokenExpired →
      postBooks verify req db = (.failed (.unauthorized "Token has expired"), db)) ∧
    (∀ u, authenticateToken verify req.authHeader = .ok u → u.role ≠ some "admin" →
      postBooks verify req db =
        (.failed (.forbidden "Access denied. Required role: admin"), db)) ∧
    (∀ u, authenticateToken verify req.authHeader = .ok u → u.role = some "admin" →
      postBooks verify req db =
        (match createBook req.body db with
         | (.ok fb, db') => (.created fb, db')
         | (.error e, db') => (.failed e, db'))) ∧
    (∀ m, (AppError.unauthorized m).statusCode = 401 ∧
      (AppError.unauthorized m).code = "UNAUTHORIZED") ∧
    (∀ m, (AppError.forbidden m).statusCode = 403 ∧
      (AppError.forbidden m).code = "FORBIDDEN") := by
  refine ⟨fun h => ?_, fun e he => ⟨?_, ?_⟩, fun h tk hh hne hsplit hv => ?_,
    fun u hu hrole => ?_, fun u hu hrole => ?_, fun m => ⟨rfl, rfl⟩,
    fun m => ⟨rfl, rfl⟩⟩
  · simp [postBooks, authenticateToken, h]
  · simp [postBooks, he]
  · exact authenticateToken_error_unauthorized verify req.authHeader e he
  · have hb : (h == "") = false := beq_eq_false_iff_ne.2 hne
    simp [postBooks, authenticateToken, hh, hb, hsplit, hv]
  · have hmsg : "Access denied. Required role: " ++ String.intercalate " or " ["admin"] =
        "Access denied. Required role: admin" := rfl
    have hrr : requireRoleCheck ["admin"] (some u) =
        .error (.forbidden "Access denied. Required role: admin") := by
      cases hr : u.role with
      | none => simp [requireRoleCheck, hr, hmsg]
      | some r =>
        have hradm : r ≠ "admin" := fun heq => hrole (by rw [hr, heq])
        simp [requireRoleCheck, hr, hradm, hmsg]
    simp [postBooks, hu, hrr]
  · have hrr : requireRoleCheck ["admin"] (some u) = .ok () := by
      simp [requireRoleCheck, hrole]
    simp only [postBooks, hu, hrr]

/-- Closed instance of the C9 theorem: a token the verifier reports as
expired yields the Unauthorized expired-token outcome with the store
untouched. -/
theorem auth_gate_witness :
    postBooks expiredVerify badCreateReq emptyDb =
      (.failed (.unauthorized "Token has expired"), emptyDb) :=
  (auth_gate expiredVerify badCreateReq emptyDb).2.2.1 "Bearer sometoken" "sometoken"
    rfl (by decide) (by decide) rfl

/-- C10: the list controller applies `isActive`/`isFeatured` as filters
only when the query string is exactly `"true"` or `"false"`, silently
dropping any other value (a dropped flag constrains no book), and coerces
absent or non-numeric `page`/`limit` to the defaults 1 and 20. -/
theorem list_query_coercions (q : ListQuery) :
    (q.isActive = some "true" → (listOptions q).isActive = some true) ∧
    (q.isActive = some "false" → (listOptions q).isActive = some false) ∧
    (q.isActive ≠ some "true" → q.isActive ≠ some "false" →
      (listOptions q).isActive = none) ∧
    (q.isFeatured = some "true" → (listOptions q).isFeatured = some true) ∧
    (q.isFeatured = some "false" → (listOptions q).isFeatured = some false) ∧
    (q.isFeatured ≠ some "true" → q.isFeatured ≠ some "false" →
      (listOptions q).isFeatured = none) ∧
    (∀ (s f : Option String) (iF : Option Bool),
      (buildWhere s f none iF).isActive = none ∧
      (buildWhere s f iF none).isFeatured = none) ∧
    (∀ (w : WhereClause), w.isActive = none → ∀ (b : BookRow) (v : Bool),
      matchesWhere w { b with isActive := v } = matchesWhere w b) ∧
    (∀ (w : WhereClause), w.isFeatured = none → ∀ (b : BookRow) (v : Bool),
      matchesWhere w { b with isFeatured := v } = matchesWhere w b) ∧
    (q.page = none → (listOptions q).page = some 1) ∧
    (jsParseInt q.page = none → (listOptions q).page = some 1) ∧
    (q.limit = none → (listOptions q).limit = some 20) ∧
    (jsParseInt q.limit = none → (listOptions q).limit = some 20) := by
  refine ⟨fun h => ?_, fun h => ?_, fun h1 h2 => ?_, fun h => ?_, fun h => ?_,
    fun h1 h2 => ?_, fun s f iF => ⟨rfl, rfl⟩, fun w hw b v => ?_, fun w hw b v => ?_,
    fun h => ?_, fun h => ?_, fun h => ?_, fun h => ?_⟩
  · simp [listOptions, h]
  · simp [listOptions, h]
  · simp [listOptions, h1, h2]
  · simp [listOptions, h]
  · simp [listOptions, h]
  · simp [listOptions, h1, h2]
  · simp [matchesWhere, hw]
  · simp [matchesWhere, hw]
  · simp [listOptions, h, jsParseInt, jsOrInt]
  · simp [listOptions, h, jsOrInt]
  · simp [listOptions, h, jsParseInt, jsOrInt]
  · simp [listOptions, h, jsOrInt]

/-- Closed instance of the C10 theorem: `isActive=yes` is dropped and the
non-numeric `page=abc` defaults to 1. -/
theorem list_query_coercions_witness :
    (listOptions junkListQuery).isActive = none ∧
    (listOptions junkListQuery).page = some 1 :=
  ⟨(list_query_coercions junkListQuery).2.2.1 (by decide) (by decide),
   (list_query_coercions junkListQuery).2.2.2.2.2.2.2.2.2.2.1 (by decide)⟩

/-- C4 (code evaluation at the failing input): the declared `isbn13`
creation rule detects the too-short value `"123"`, yet the book route
pipeline — which mounts no validation middleware — lets an authenticated
admin request with that payload through to the service, inserts the Book
row with `isbn13 = "123"`, and raises no ValidationError. -/
theorem postBooks_skips_validation :
    isbn13Matches "123" = false ∧
    (runRules [isbn13Rule] badCreateBody).map (fun e => e.path) = [some "isbn13"] ∧
    ((postBooks adminVerify badCreateReq emptyDb).2.books.map (fun b => b.isbn13)) =
      [some "123"] ∧
    isValidationFailure (postBooks adminVerify badCreateReq emptyDb).1 = false := by
  refine ⟨by decide, by decide, ?_, ?_⟩
  · decide
  · decide
